import Mathlib

/-!
Verification of the sandboxed MCP file/DB server (`src/mcp_Server.py`).

The Python program is shallowly embedded:
* a filesystem path is a list of components (the string form used by the
  `startswith` confinement check is recovered by `pathStr`);
* the sandbox directory `TARGET_FOLDER` is a parameter `root`, assumed
  canonical (`rootOK`: no empty, `.` or `..` components, as produced by
  `Path.resolve()` at startup);
* the flat sandbox directory content is an association list from basename
  to file data; server-wide state (`St`) also counts open SQLite
  connections so that connection lifecycle can be stated;
* Python exceptions are an explicit error channel `PyErr`; a raised
  exception carries the state at raise time (no rollback, as in Python);
  `try ... except Exception as e: ...` is `pyTry`.
-/

namespace McpServer

/-- One SQLite table: name, columns as (name, declared type), rows. -/
structure Table where
  name : String
  cols : List (String × String)
  rows : List (List Int)
deriving DecidableEq

/-- A single-file SQLite database: its catalog of tables. -/
structure Database where
  tables : List Table
deriving DecidableEq

def emptyDb : Database := ⟨[]⟩

def hasTable (d : Database) (t : String) : Bool :=
  d.tables.any (fun tb => tb.name == t)

/-- Content of one regular file in the sandbox directory. -/
inductive FileData
  | text (s : String)
  | pdf (pages : List String)
  | docx (paras : List String)
  | db (d : Database)
  | blob
deriving DecidableEq

/-- A directory entry: the sandbox root itself, or a regular file. -/
inductive Entry
  | dir
  | file (d : FileData)
deriving DecidableEq

/-- The flat sandbox directory: basename ↦ file data. -/
abbrev FS := List (String × FileData)

/-- Server state: sandbox contents plus the number of open SQLite
connections (instrumentation for the connection-lifecycle claims). -/
structure St where
  fs : FS
  openConns : Nat
deriving DecidableEq

/-- Python exception values; each constructor carries its `str(e)` text. -/
inductive PyErr
  | valueError (m : String)
  | isADirectoryError (m : String)
  | fileNotFound (m : String)
  | unicodeDecodeError (m : String)
  | operationalError (m : String)
  | databaseError (m : String)
deriving DecidableEq

/-- Python `str(e)`. -/
def PyErr.str : PyErr → String
  | .valueError m => m
  | .isADirectoryError m => m
  | .fileNotFound m => m
  | .unicodeDecodeError m => m
  | .operationalError m => m
  | .databaseError m => m

/-- `try: body except Exception as e: handler` — the handler receives the
exception and the state at raise time (Python does not roll back). -/
def pyTry (body : Except (PyErr × St) (String × St))
    (handler : PyErr → St → Except (PyErr × St) (String × St)) :
    Except (PyErr × St) (String × St) :=
  match body with
  | .ok r => .ok r
  | .error (e, s) => handler e s

/-! ### Path strings and resolution -/

/-- `os.path.basename`: everything after the last `/`. -/
def basename (s : String) : String :=
  String.mk ((s.data.reverse.takeWhile (fun c => c != '/')).reverse)

/-- Characters of `"/".join(components)`. -/
def joinComps : List String → List Char
  | [] => []
  | [c] => c.data
  | c :: d :: cs => c.data ++ '/' :: joinComps (d :: cs)

/-- Characters of `str(path)` for an absolute path given by components. -/
def pathData (p : List String) : List Char :=
  '/' :: joinComps p

/-- `str(path)` of an absolute path. -/
def pathStr (p : List String) : String :=
  String.mk (pathData p)

/-- Python `str.startswith`. -/
def pyStartsWith (pre s : String) : Bool :=
  pre.data.isPrefixOf s.data

/-- Python `str.endswith`. -/
def pyEndsWith (s suf : String) : Bool :=
  suf.data.isSuffixOf s.data

/-- `Path.resolve()` normalization of `.` and `..` components on an
absolute component list (symlinks are out of scope of the model). -/
def resolveAux : List String → List String → List String
  | acc, [] => acc
  | acc, c :: cs =>
    if c = "" ∨ c = "." then resolveAux acc cs
    else if c = ".." then resolveAux acc.dropLast cs
    else resolveAux (acc ++ [c]) cs

def resolve (p : List String) : List String := resolveAux [] p

/-- A canonical path component: what `Path.resolve()` leaves in a path. -/
def goodComp (c : String) : Prop := c ≠ "" ∧ c ≠ "." ∧ c ≠ ".."

/-- The sandbox root is canonical (it is built by `Path.resolve()`). -/
def rootOK (root : List String) : Prop := ∀ c ∈ root, goodComp c

instance : DecidablePred goodComp := fun c => by
  unfold goodComp; infer_instance

instance (root : List String) : Decidable (rootOK root) := by
  unfold rootOK; infer_instance

/-- `_get_safe_path`: basename, join to the root, resolve, and check the
string-prefix confinement condition; raises `ValueError` otherwise. -/
def get_safe_path (root : List String) (filename : String) :
    Except PyErr (List String) :=
  let safe_name := basename filename
  let full_path := resolve (root ++ [safe_name])
  if pyStartsWith (pathStr root) (pathStr full_path) then .ok full_path
  else .error (.valueError
    ("Access denied: " ++ filename ++ " is outside the allowed directory."))

/-! ### Lemmas about resolution and the confinement check -/

theorem resolveAux_append (xs ys : List String) :
    ∀ acc, resolveAux acc (xs ++ ys) = resolveAux (resolveAux acc xs) ys := by
  induction xs with
  | nil => intro acc; rfl
  | cons c cs ih =>
    intro acc
    simp only [List.cons_append, resolveAux]
    split_ifs <;> apply ih

theorem resolveAux_good (l : List String) (h : ∀ c ∈ l, goodComp c) :
    ∀ acc, resolveAux acc l = acc ++ l := by
  induction l with
  | nil => intro acc; simp [resolveAux]
  | cons c cs ih =>
    intro acc
    have hc : goodComp c := h c (by simp)
    obtain ⟨h1, h2, h3⟩ := hc
    simp only [resolveAux]
    rw [if_neg (by tauto), if_neg h3]
    rw [ih (fun x hx => h x (by simp [hx]))]
    simp

theorem joinComps_append_one (rs : List String) (a : String) :
    joinComps (rs ++ [a]) =
      joinComps rs ++ (if rs = [] then ([] : List Char) else ['/']) ++ a.data := by
  induction rs with
  | nil => simp [joinComps]
  | cons c cs ih =>
    cases cs with
    | nil => simp [joinComps]
    | cons d ds =>
      simp only [List.cons_append, joinComps, List.append_eq]
      rw [← List.cons_append, ih]
      simp

theorem pathData_append_one (rs : List String) (a : String) :
    pathData (rs ++ [a]) =
      pathData rs ++ (if rs = [] then ([] : List Char) else ['/']) ++ a.data := by
  simp only [pathData, joinComps_append_one]
  split_ifs <;> simp

theorem isPrefixOf_append_self (l t : List Char) :
    List.isPrefixOf l (l ++ t) = true := by
  induction l with
  | nil => simp [List.isPrefixOf]
  | cons c cs ih => simp [List.isPrefixOf, ih]

theorem isPrefixOf_length {l₁ l₂ : List Char}
    (h : List.isPrefixOf l₁ l₂ = true) : l₁.length ≤ l₂.length := by
  induction l₁ generalizing l₂ with
  | nil => simp
  | cons c cs ih =>
    cases l₂ with
    | nil => simp [List.isPrefixOf] at h
    | cons d ds =>
      simp only [List.isPrefixOf, Bool.and_eq_true] at h
      simpa using ih h.2

theorem pyStartsWith_refl (s : String) : pyStartsWith s s = true := by
  have h := isPrefixOf_append_self s.data []
  rw [List.append_nil] at h
  simp [pyStartsWith, h]

theorem pyStartsWith_append (s t : String) :
    pyStartsWith s (s ++ t) = true := by
  simp [pyStartsWith, String.data_append, isPrefixOf_append_self]

theorem string_ne_empty_data {a : String} (h : a ≠ "") : a.data ≠ [] := by
  intro hd
  apply h
  cases a with
  | mk l => cases hd; rfl

/-- The string form of a canonical root is not a prefix of the string
form of its parent directory (the parent is strictly shorter). -/
theorem not_startsWith_dropLast (root : List String) (hroot : rootOK root)
    (hne : root ≠ []) :
    pyStartsWith (pathStr root) (pathStr root.dropLast) = false := by
  have hsplit : root.dropLast ++ [root.getLast hne] = root :=
    List.dropLast_append_getLast hne
  have hlast : goodComp (root.getLast hne) :=
    hroot _ (List.getLast_mem hne)
  have hlen : (pathData root.dropLast).length < (pathData root).length := by
    have hgl : 0 < (root.getLast hne).data.length :=
      List.length_pos.mpr (string_ne_empty_data hlast.1)
    conv_rhs => rw [← hsplit]
    rw [pathData_append_one]
    by_cases hd : root.dropLast = []
    · rw [if_pos hd]
      simp only [List.append_nil, List.length_append]
      omega
    · rw [if_neg hd]
      simp only [List.length_append, List.length_cons, List.length_nil]
      omega
  cases hb : pyStartsWith (pathStr root) (pathStr root.dropLast) with
  | false => rfl
  | true =>
    exfalso
    have := isPrefixOf_length (by simpa [pyStartsWith, pathStr] using hb)
    simp [pathStr] at this
    omega

/-- Resolution of a joined basename, trivial-component case. -/
theorem gsp_eq_root (root : List String) (filename : String)
    (hroot : rootOK root)
    (hb : basename filename = "" ∨ basename filename = ".") :
    get_safe_path root filename = .ok root := by
  unfold get_safe_path
  have h1 : resolve (root ++ [basename filename]) = root := by
    unfold resolve
    rw [resolveAux_append, resolveAux_good root hroot []]
    rcases hb with h | h <;> simp [h, resolveAux]
  simp only [h1, pyStartsWith_refl, if_true]

/-- Resolution of a joined basename, `..` case over a nonempty root:
the check rejects with `ValueError`. -/
theorem gsp_parent_fail (root : List String) (filename : String)
    (hroot : rootOK root) (hne : root ≠ [])
    (hb : basename filename = "..") :
    get_safe_path root filename = .error (.valueError
      ("Access denied: " ++ filename ++ " is outside the allowed directory.")) := by
  unfold get_safe_path
  have h1 : resolve (root ++ [basename filename]) = root.dropLast := by
    unfold resolve
    rw [resolveAux_append, resolveAux_good root hroot []]
    simp [hb, resolveAux]
  simp only [h1, not_startsWith_dropLast root hroot hne]
  rfl

/-- Resolution of a joined basename, real-component case: the result is
the child `root ++ [n]` and the check accepts. -/
theorem gsp_child (root : List String) (filename : String)
    (hroot : rootOK root)
    (h1 : basename filename ≠ "") (h2 : basename filename ≠ ".")
    (h3 : basename filename ≠ "..") :
    get_safe_path root filename = .ok (root ++ [basename filename]) := by
  unfold get_safe_path
  have hres : resolve (root ++ [basename filename]) = root ++ [basename filename] := by
    unfold resolve
    rw [resolveAux_append, resolveAux_good root hroot []]
    simp only [List.nil_append, resolveAux]
    rw [if_neg (by tauto), if_neg h3]
  have hpre : pyStartsWith (pathStr root) (pathStr (root ++ [basename filename])) = true := by
    unfold pyStartsWith pathStr
    rw [pathData_append_one]
    split_ifs <;> simp [isPrefixOf_append_self]
  simp [hres, hpre]

instance {ε α : Type} [DecidableEq ε] [DecidableEq α] :
    DecidableEq (Except ε α) := fun a b =>
  match a, b with
  | .ok x, .ok y =>
    if h : x = y then .isTrue (by rw [h])
    else .isFalse (by intro hh; injection hh; contradiction)
  | .error x, .error y =>
    if h : x = y then .isTrue (by rw [h])
    else .isFalse (by intro hh; injection hh; contradiction)
  | .ok x, .error y => .isFalse (by intro hh; exact Except.noConfusion hh)
  | .error x, .ok y => .isFalse (by intro hh; exact Except.noConfusion hh)

/-- Case analysis of `_get_safe_path` over the basename of the input. -/
theorem gsp_cases (root : List String) (filename : String) (p : List String)
    (hroot : rootOK root) (h : get_safe_path root filename = .ok p) :
    p = root ∨ p = root ++ [basename filename] := by
  by_cases hb : basename filename = "" ∨ basename filename = "."
  · rw [gsp_eq_root root filename hroot hb] at h
    injection h with h
    exact Or.inl h.symm
  · push_neg at hb
    by_cases hdd : basename filename = ".."
    · by_cases hr : root = []
      · subst hr
        have h1 : get_safe_path [] filename = .ok [] := by
          unfold get_safe_path
          have : resolve ([] ++ [basename filename]) = [] := by
            unfold resolve
            simp [hdd, resolveAux]
          simp only [this, pyStartsWith_refl, if_true]
        rw [h1] at h
        injection h with h
        exact Or.inl h.symm
      · rw [gsp_parent_fail root filename hroot hr hdd] at h
        exact Except.noConfusion h
    · rw [gsp_child root filename hroot hb.1 hb.2 hdd] at h
      injection h with h
      exact Or.inr h.symm

/-- C1, part of the claim: a failing resolution is exactly the
access-denied `ValueError`. -/
theorem gsp_error_form (root : List String) (filename : String) (e : PyErr)
    (h : get_safe_path root filename = .error e) :
    e = .valueError
      ("Access denied: " ++ filename ++ " is outside the allowed directory.") := by
  unfold get_safe_path at h
  by_cases hc : pyStartsWith (pathStr root)
      (pathStr (resolve (root ++ [basename filename]))) = true
  · simp only [hc, if_true] at h
    cases h
  · simp only [Bool.not_eq_true] at hc
    simp only [hc, Bool.false_eq_true, if_false] at h
    injection h with h
    exact h.symm

/-- C1: for every caller-supplied filename, `_get_safe_path` either
returns the sandbox root itself or a direct child of it (so never a path
outside the sandbox), or raises the access-denied `ValueError`. -/
theorem spec_c1_path_confinement :
    (∀ (root : List String) (filename : String) (p : List String),
      rootOK root → get_safe_path root filename = .ok p →
      ∃ rest, p = root ++ rest)
    ∧ (∀ (root : List String) (filename : String) (e : PyErr),
      get_safe_path root filename = .error e →
      e = .valueError
        ("Access denied: " ++ filename ++ " is outside the allowed directory.")) := by
  constructor
  · intro root filename p hroot h
    rcases gsp_cases root filename p hroot h with h1 | h1
    · exact ⟨[], by simp [h1]⟩
    · exact ⟨[basename filename], h1⟩
  · exact gsp_error_form

/-- C1 witness: the traversal attempt `../../etc/passwd` resolves to the
confined child `passwd` of the sandbox root. -/
theorem spec_c1_witness :
    ∃ rest, (["ws", "passwd"] : List String) = ["ws"] ++ rest :=
  spec_c1_path_confinement.1 ["ws"] "../../etc/passwd" ["ws", "passwd"]
    (by decide) (by decide)

/-! ### Filesystem primitives over the flat sandbox -/

/-- `PurePath.name`: the final component. -/
def pathName (p : List String) : String := p.getLast?.getD ""

/-- `PurePath.suffix`: from the last dot of the name, when that dot is
neither the first nor the last character. -/
def pySuffix (name : String) : String :=
  let r := name.data.reverse
  match r.findIdx? (fun c => c == '.') with
  | none => ""
  | some j =>
    if 0 < j ∧ j + 1 < name.data.length then String.mk ((r.take (j + 1)).reverse)
    else ""

/-- Python `str.lower()` (ASCII case mapping, as in the suffixes used
here). -/
def pyLower (s : String) : String :=
  String.mk (s.data.map Char.toLower)

/-- `path.suffix.lower()` of a resolved path. -/
def pathSuffixLower (p : List String) : String :=
  pyLower (pySuffix (pathName p))

/-- Split a resolved path as a direct child of the root, if it is one. -/
def splitChild (root p : List String) : Option String :=
  if p.take root.length = root then
    match p.drop root.length with
    | [n] => some n
    | _ => none
  else none

/-- What the filesystem holds at a resolved path: the sandbox root is a
directory, its direct children are the stored regular files. -/
def pathEntry (fs : FS) (root p : List String) : Option Entry :=
  if p = root then some .dir
  else
    match splitChild root p with
    | some n => (fs.lookup n).map Entry.file
    | none => none

/-- `Path.exists()`. -/
def pathExists (fs : FS) (root p : List String) : Bool :=
  (pathEntry fs root p).isSome

/-- Store `d` under basename `n` (replace the first binding, else add). -/
def fsSet : FS → String → FileData → FS
  | [], n, d => [(n, d)]
  | (k, v) :: rest, n, d =>
    if k = n then (n, d) :: rest else (k, v) :: fsSet rest n d

/-- Remove the binding of basename `n`. -/
def fsErase : FS → String → FS
  | [], _ => []
  | (k, v) :: rest, n => if k = n then rest else (k, v) :: fsErase rest n

/-- `open(path, encoding="utf-8").read()`: may raise
`IsADirectoryError`, `UnicodeDecodeError` or `FileNotFoundError`. -/
def openRead (fs : FS) (root p : List String) : Except PyErr String :=
  match pathEntry fs root p with
  | some .dir =>
    .error (.isADirectoryError
      ("[Errno 21] Is a directory: \x27" ++ pathStr p ++ "\x27"))
  | some (.file (.text s)) => .ok s
  | some (.file _) =>
    .error (.unicodeDecodeError
      "\x27utf-8\x27 codec cannot decode the bytes of this file")
  | none =>
    .error (.fileNotFound
      ("[Errno 2] No such file or directory: \x27" ++ pathStr p ++ "\x27"))

/-- `open(path, write_mode, encoding="utf-8")` followed by
`f.write(content)`: mode `"a"` appends, any other mode truncates;
the file is created when absent. Appending text to a non-text file
yields undecodable bytes (`blob`). -/
def openWrite (fs : FS) (root p : List String) (write_mode content : String) :
    Except PyErr FS :=
  if p = root then
    .error (.isADirectoryError
      ("[Errno 21] Is a directory: \x27" ++ pathStr p ++ "\x27"))
  else
    match splitChild root p with
    | some n =>
      if write_mode = "a" then
        match fs.lookup n with
        | some (.text s) => .ok (fsSet fs n (.text (s ++ content)))
        | some _ => .ok (fsSet fs n .blob)
        | none => .ok (fsSet fs n (.text content))
      else .ok (fsSet fs n (.text content))
    | none =>
      .error (.fileNotFound
        ("[Errno 2] No such file or directory: \x27" ++ pathStr p ++ "\x27"))

/-- `os.remove(path)`. -/
def osRemove (fs : FS) (root p : List String) : Except PyErr FS :=
  if p = root then
    .error (.isADirectoryError
      ("[Errno 21] Is a directory: \x27" ++ pathStr p ++ "\x27"))
  else
    match splitChild root p with
    | some n => .ok (fsErase fs n)
    | none =>
      .error (.fileNotFound
        ("[Errno 2] No such file or directory: \x27" ++ pathStr p ++ "\x27"))

/-- `_read_pdf`: concatenates each extracted page followed by a newline;
any extraction failure is caught and reported as a string. -/
def read_pdf (fs : FS) (root p : List String) : String :=
  match pathEntry fs root p with
  | some (.file (.pdf pages)) => String.join (pages.map (fun t => t ++ "\n"))
  | _ => "Error reading PDF: invalid pdf"

/-- `_read_docx`: paragraph texts joined by newlines; failures are
caught and reported as a string. -/
def read_docx (fs : FS) (root p : List String) : String :=
  match pathEntry fs root p with
  | some (.file (.docx paras)) => String.intercalate "\n" paras
  | _ => "Error reading DOCX: invalid docx"

/-! ### SQLite model

Modelled from the spec: the external `sqlite3` library (not part of this
repository). A connection to a directory fails; connecting to a missing
file materializes an empty database; a connection to a non-database file
succeeds lazily and every statement on it fails; committed statement
effects are written back to the file. -/

/-- An open connection: a real database, or a file whose bytes are not a
database (every statement on it raises `DatabaseError`). -/
inductive Conn
  | realDb (d : Database)
  | notADb
deriving DecidableEq

/-- Result of `cursor.execute` on a real database: `cursor.description`
(output column names, when the statement produces a result set), the
fetched rows, the connection's `total_changes`, and the database state
after the statement. -/
structure CursorStep where
  description : Option (List String)
  rows : List (List Int)
  changes : Nat
  db : Database
deriving DecidableEq

/-- The statement-execution semantics of the engine. -/
abbrev SqlEngine := Database → String → Except PyErr CursorStep

/-- `sqlite3.connect(path)`. -/
def sqliteConnect (root : List String) (st : St) (p : List String) :
    Except PyErr (Conn × St) :=
  match pathEntry st.fs root p with
  | some .dir => .error (.operationalError "unable to open database file")
  | some (.file (.db d)) =>
    .ok (.realDb d, { st with openConns := st.openConns + 1 })
  | some (.file _) =>
    .ok (.notADb, { st with openConns := st.openConns + 1 })
  | none =>
    match splitChild root p with
    | some n =>
      .ok (.realDb emptyDb,
        { fs := fsSet st.fs n (.db emptyDb), openConns := st.openConns + 1 })
    | none => .error (.operationalError "unable to open database file")

/-- `conn.close()`. -/
def connClose (st : St) : St := { st with openConns := st.openConns - 1 }

/-- `conn.commit()`: persist the database state to the file. -/
def connCommit (root : List String) (st : St) (p : List String)
    (d : Database) : St :=
  match splitChild root p with
  | some n => { st with fs := fsSet st.fs n (.db d) }
  | none => st

/-- `cursor.execute(query)` on an open connection. -/
def connExec (engine : SqlEngine) : Conn → String → Except PyErr CursorStep
  | .realDb d, q => engine d q
  | .notADb, _ => .error (.databaseError "file is not a database")

/-- Modelled from the spec: the concrete `sqlite3` engine, restricted to
the statements the spec's examples exercise; every other statement text
fails like malformed SQL. -/
def sqliteExec : SqlEngine := fun d q =>
  if q = "SELECT 1" then .ok ⟨some ["1"], [[(1 : Int)]], 0, d⟩
  else if q = "CREATE TABLE t(id INT)" then
    if hasTable d "t" then .error (.operationalError "table t already exists")
    else .ok ⟨none, [], 0, ⟨d.tables ++ [⟨"t", [("id", "INT")], []⟩]⟩⟩
  else .error (.operationalError ("near \x22" ++ q ++ "\x22: syntax error"))

/-- Python `repr` of the dict built by `dict(zip(cols, row))`. -/
def pyDictStr (cols : List String) (row : List Int) : String :=
  "\x7b" ++
    String.intercalate ", "
      (List.zipWith (fun c v => "\x27" ++ c ++ "\x27: " ++ toString v) cols row)
    ++ "\x7d"

/-- Python `str` of a list of already-rendered elements. -/
def pyListStr (xs : List String) : String :=
  "[" ++ String.intercalate ", " xs ++ "]"

/-! ### The seven tool operations -/

/-- `list_files`. -/
def list_files (st : St) : Except (PyErr × St) (String × St) :=
  pyTry
    (let files := st.fs.map Prod.fst
     if files.isEmpty then .ok ("The workspace is empty.", st)
     else
       .ok ("Files available:\n" ++
         String.intercalate "\n" (files.map (fun f => "- " ++ f)), st))
    (fun e s => .ok ("Error listing files: " ++ e.str, s))

/-- `read_file`. -/
def read_file (root : List String) (st : St) (filename : String) :
    Except (PyErr × St) (String × St) :=
  pyTry
    (match get_safe_path root filename with
     | .error e => .error (e, st)
     | .ok file_path =>
       if !pathExists st.fs root file_path then
         .ok ("Error: File \x27" ++ filename ++ "\x27 not found.", st)
       else
         let sfx := pathSuffixLower file_path
         if sfx = ".pdf" then .ok (read_pdf st.fs root file_path, st)
         else if sfx = ".docx" then .ok (read_docx st.fs root file_path, st)
         else
           match openRead st.fs root file_path with
           | .ok s => .ok (s, st)
           | .error (.unicodeDecodeError _) =>
             .ok ("Error: Binary file detected. Use \x27inspect_sql_db\x27 for databases.", st)
           | .error e => .error (e, st))
    (fun e s => .ok ("Error: " ++ e.str, s))

/-- `write_to_file`. -/
def write_to_file (root : List String) (st : St)
    (filename content mode : String) : Except (PyErr × St) (String × St) :=
  pyTry
    (match get_safe_path root filename with
     | .error e => .error (e, st)
     | .ok file_path =>
       if pathExists st.fs root file_path &&
           [".pdf", ".docx", ".db", ".sqlite"].contains (pathSuffixLower file_path) then
         .ok ("Error: Cannot write text directly to binary/database files.", st)
       else
         let write_mode := if mode = "a" then "a" else "w"
         match openWrite st.fs root file_path write_mode content with
         | .ok fs2 =>
           .ok ("✅ Successfully wrote to " ++ filename, { st with fs := fs2 })
         | .error e => .error (e, st))
    (fun e s => .ok ("Error: " ++ e.str, s))

/-- `delete_file`. -/
def delete_file (root : List String) (st : St) (filename : String) :
    Except (PyErr × St) (String × St) :=
  pyTry
    (match get_safe_path root filename with
     | .error e => .error (e, st)
     | .ok file_path =>
       if !pathExists st.fs root file_path then
         .ok ("Error: File \x27" ++ filename ++ "\x27 not found.", st)
       else
         match osRemove st.fs root file_path with
         | .ok fs2 =>
           .ok ("✅ Successfully deleted " ++ filename, { st with fs := fs2 })
         | .error e => .error (e, st))
    (fun e s => .ok ("Error deleting file: " ++ e.str, s))

/-- `create_sql_db`: the extension check runs before the `try` block and
before any path resolution. -/
def create_sql_db (root : List String) (st : St) (filename : String) :
    Except (PyErr × St) (String × St) :=
  if !(pyEndsWith filename ".db" || pyEndsWith filename ".sqlite") then
    .ok ("Error: Database filename must end with .db or .sqlite", st)
  else
    pyTry
      (match get_safe_path root filename with
       | .error e => .error (e, st)
       | .ok file_path =>
         if pathExists st.fs root file_path then
           .ok ("Error: File \x27" ++ filename ++ "\x27 already exists.", st)
         else
           match sqliteConnect root st file_path with
           | .ok (_, st1) =>
             .ok ("✅ Created new database: " ++ filename, connClose st1)
           | .error e => .error (e, st))
      (fun e s => .ok ("Error creating database: " ++ e.str, s))

/-- `SELECT name FROM sqlite_master WHERE type='table';` read from the
connection's catalog. -/
def masterTables : Conn → Except PyErr (List Table)
  | .realDb d => .ok d.tables
  | .notADb => .error (.databaseError "file is not a database")

/-- One table's block of the `inspect_sql_db` report. -/
def tableInfoStr (t : Table) : String :=
  "\nTable: " ++ t.name ++ "\n" ++ String.mk (List.replicate 20 '-') ++ "\n" ++
    String.join (t.cols.map (fun c => "  - " ++ c.1 ++ " (" ++ c.2 ++ ")\n"))

/-- `inspect_sql_db`: note the exception path does not close the
connection (the real code leaks it to the garbage collector). -/
def inspect_sql_db (root : List String) (st : St) (filename : String) :
    Except (PyErr × St) (String × St) :=
  pyTry
    (match get_safe_path root filename with
     | .error e => .error (e, st)
     | .ok file_path =>
       if !pathExists st.fs root file_path then
         .ok ("Error: Database file not found.", st)
       else
         match sqliteConnect root st file_path with
         | .error e => .error (e, st)
         | .ok (conn, st1) =>
           match masterTables conn with
           | .error e => .error (e, st1)
           | .ok tables =>
             if tables.isEmpty then .ok ("Database is empty.", connClose st1)
             else
               .ok ("Schema for " ++ filename ++ ":\n" ++
                 String.join (tables.map tableInfoStr), connClose st1))
    (fun e s => .ok ("Error: " ++ e.str, s))

/-- `run_sql_query`: resolve, connect (creating a missing file), execute
one statement inside a nested `try`, commit, and render either the
fetched rows or the rows-affected count; per-statement failures close
the connection and report a query-level error. -/
def run_sql_query (engine : SqlEngine) (root : List String) (st : St)
    (filename query : String) : Except (PyErr × St) (String × St) :=
  pyTry
    (match get_safe_path root filename with
     | .error e => .error (e, st)
     | .ok file_path =>
       match sqliteConnect root st file_path with
       | .error e => .error (e, st)
       | .ok (conn, st1) =>
         match connExec engine conn query with
         | .ok step =>
           let st2 := connCommit root st1 file_path step.db
           match step.description with
           | some cols =>
             if step.rows.isEmpty then
               .ok ("Query returned 0 results.", connClose st2)
             else
               .ok (pyListStr (step.rows.map (pyDictStr cols)), connClose st2)
           | none =>
             .ok ("✅ Success. Rows affected: " ++ toString step.changes,
               connClose st2)
         | .error e =>
           .ok ("Query Execution Error: " ++ e.str, connClose st1))
    (fun e s => .ok ("System Error: " ++ e.str, s))

/-! ### The tool boundary -/

/-- One external invocation of the server. -/
inductive ToolCall
  | listFiles
  | readFile (filename : String)
  | writeToFile (filename content mode : String)
  | deleteFile (filename : String)
  | createSqlDb (filename : String)
  | inspectSqlDb (filename : String)
  | runSqlQuery (filename query : String)
deriving DecidableEq

/-- The transport boundary: dispatch an invocation to its tool. -/
def callTool (root : List String) (st : St) :
    ToolCall → Except (PyErr × St) (String × St)
  | .listFiles => list_files st
  | .readFile f => read_file root st f
  | .writeToFile f c m => write_to_file root st f c m
  | .deleteFile f => delete_file root st f
  | .createSqlDb f => create_sql_db root st f
  | .inspectSqlDb f => inspect_sql_db root st f
  | .runSqlQuery f q => run_sql_query sqliteExec root st f q

/-! ### Basic lemmas about the sandbox filesystem -/

theorem append_ne_self (root : List String) (n : String) :
    root ++ [n] ≠ root := by
  intro h
  have := congrArg List.length h
  simp at this

theorem splitChild_append (root : List String) (n : String) :
    splitChild root (root ++ [n]) = some n := by
  unfold splitChild
  rw [if_pos (List.take_left root [n])]
  rw [List.drop_left root [n]]

theorem splitChild_self (root : List String) :
    splitChild root root = none := by
  unfold splitChild
  rw [if_pos (by simp)]
  simp

theorem pathEntry_root (fs : FS) (root : List String) :
    pathEntry fs root root = some .dir := by
  unfold pathEntry
  rw [if_pos rfl]

theorem pathEntry_child (fs : FS) (root : List String) (n : String) :
    pathEntry fs root (root ++ [n]) = (fs.lookup n).map Entry.file := by
  unfold pathEntry
  rw [if_neg (append_ne_self root n), splitChild_append]

theorem pathName_append (root : List String) (n : String) :
    pathName (root ++ [n]) = n := by
  unfold pathName
  rw [List.getLast?_concat]
  rfl

theorem fsSet_lookup_self (fs : FS) (n : String) (d : FileData) :
    (fsSet fs n d).lookup n = some d := by
  induction fs with
  | nil => simp [fsSet, List.lookup]
  | cons kv rest ih =>
    obtain ⟨k, v⟩ := kv
    by_cases h : k = n
    · simp [fsSet, h, List.lookup]
    · have hbeq : (n == k) = false :=
        beq_eq_false_iff_ne.mpr (fun hnk => h hnk.symm)
      simp only [fsSet, if_neg h, List.lookup]
      rw [hbeq]
      exact ih

theorem fsSet_eq_of_lookup (fs : FS) (n : String) (d : FileData)
    (h : fs.lookup n = some d) : fsSet fs n d = fs := by
  induction fs with
  | nil => simp [List.lookup] at h
  | cons kv rest ih =>
    obtain ⟨k, v⟩ := kv
    by_cases hk : k = n
    · subst hk
      simp [List.lookup] at h
      simp [fsSet, h]
    · have hbeq : (n == k) = false :=
        beq_eq_false_iff_ne.mpr (fun hnk => hk hnk.symm)
      simp only [List.lookup] at h
      rw [hbeq] at h
      have h2 : List.lookup n rest = some d := h
      simp [fsSet, hk, ih h2]

/-! ### C2: the tool boundary never propagates an exception -/

theorem pyTry_ok (body : Except (PyErr × St) (String × St))
    (h : PyErr → St → String × St) :
    ∃ r, pyTry body (fun e s => .ok (h e s)) = .ok r := by
  cases body with
  | ok r => exact ⟨r, rfl⟩
  | error es => exact ⟨h es.1 es.2, by cases es; rfl⟩

/-- C2: every invocation of any of the seven tools, on any arguments and
any state, returns a string — no exception escapes the tool boundary. -/
theorem spec_c2_always_string (root : List String) (st : St)
    (call : ToolCall) : ∃ r, callTool root st call = .ok r := by
  cases call with
  | listFiles => exact pyTry_ok _ _
  | readFile f => exact pyTry_ok _ _
  | writeToFile f c m => exact pyTry_ok _ _
  | deleteFile f => exact pyTry_ok _ _
  | createSqlDb f =>
    show ∃ r, create_sql_db root st f = .ok r
    unfold create_sql_db
    by_cases hc : (!(pyEndsWith f ".db" || pyEndsWith f ".sqlite")) = true
    · rw [if_pos hc]
      exact ⟨_, rfl⟩
    · rw [if_neg hc]
      exact pyTry_ok _ _
  | inspectSqlDb f => exact pyTry_ok _ _
  | runSqlQuery f q => exact pyTry_ok _ _

theorem contains_eq_false_of_not_mem {a : String} {l : List String}
    (h : a ∉ l) : l.contains a = false := by
  simp [List.contains, h]

theorem pathExists_root (fs : FS) (root : List String) :
    pathExists fs root root = true := by
  simp [pathExists, pathEntry_root]

theorem pathExists_child (fs : FS) (root : List String) (n : String) :
    pathExists fs root (root ++ [n]) = (fs.lookup n).isSome := by
  simp [pathExists, pathEntry_child]

theorem openRead_dir (fs : FS) (root : List String) :
    openRead fs root root = .error (.isADirectoryError
      ("[Errno 21] Is a directory: \x27" ++ pathStr root ++ "\x27")) := by
  unfold openRead
  rw [pathEntry_root]

theorem openWrite_dir (fs : FS) (root : List String) (wm c : String) :
    openWrite fs root root wm c = .error (.isADirectoryError
      ("[Errno 21] Is a directory: \x27" ++ pathStr root ++ "\x27")) := by
  unfold openWrite
  rw [if_pos rfl]

theorem osRemove_dir (fs : FS) (root : List String) :
    osRemove fs root root = .error (.isADirectoryError
      ("[Errno 21] Is a directory: \x27" ++ pathStr root ++ "\x27")) := by
  unfold osRemove
  rw [if_pos rfl]

/-- C9: when the caller-supplied filename has an empty or `.` final
component (such as `""`, `"dir/"`, `"."`), `_get_safe_path` returns the
sandbox root itself and the confinement check passes; the file
operations then fail with a directory error, not with access-denied. -/
theorem spec_c9_trivial_basename (root : List String) (st : St)
    (filename c m : String)
    (hroot : rootOK root)
    (hb : basename filename = "" ∨ basename filename = ".")
    (hsfx : pathSuffixLower root ∉ [".pdf", ".docx", ".db", ".sqlite"]) :
    get_safe_path root filename = .ok root
    ∧ read_file root st filename =
        .ok ("Error: " ++
          ("[Errno 21] Is a directory: \x27" ++ pathStr root ++ "\x27"), st)
    ∧ write_to_file root st filename c m =
        .ok ("Error: " ++
          ("[Errno 21] Is a directory: \x27" ++ pathStr root ++ "\x27"), st)
    ∧ delete_file root st filename =
        .ok ("Error deleting file: " ++
          ("[Errno 21] Is a directory: \x27" ++ pathStr root ++ "\x27"), st) := by
  have hgsp := gsp_eq_root root filename hroot hb
  have hnotpdf : pathSuffixLower root ≠ ".pdf" := fun h => hsfx (by simp [h])
  have hnotdocx : pathSuffixLower root ≠ ".docx" := fun h => hsfx (by simp [h])
  have hcont := contains_eq_false_of_not_mem hsfx
  refine ⟨hgsp, ?_, ?_, ?_⟩
  · unfold read_file
    rw [hgsp]
    simp only [pathExists_root, Bool.not_true, Bool.false_eq_true, if_false,
      if_neg hnotpdf, if_neg hnotdocx, openRead_dir]
    rfl
  · unfold write_to_file
    rw [hgsp]
    simp only [pathExists_root, hcont, Bool.true_and, Bool.false_eq_true,
      if_false, openWrite_dir]
    rfl
  · unfold delete_file
    rw [hgsp]
    simp only [pathExists_root, Bool.not_true, Bool.false_eq_true, if_false,
      osRemove_dir]
    rfl

/-- C9 witness: filename `"dir/"` resolves to the root and reading it
reports a directory error. -/
theorem spec_c9_witness :
    get_safe_path ["ws"] "dir/" = .ok ["ws"]
    ∧ read_file ["ws"] ⟨[], 0⟩ "dir/" =
        .ok ("Error: " ++
          ("[Errno 21] Is a directory: \x27" ++ pathStr ["ws"] ++ "\x27"), ⟨[], 0⟩)
    ∧ write_to_file ["ws"] ⟨[], 0⟩ "dir/" "hello" "w" =
        .ok ("Error: " ++
          ("[Errno 21] Is a directory: \x27" ++ pathStr ["ws"] ++ "\x27"), ⟨[], 0⟩)
    ∧ delete_file ["ws"] ⟨[], 0⟩ "dir/" =
        .ok ("Error deleting file: " ++
          ("[Errno 21] Is a directory: \x27" ++ pathStr ["ws"] ++ "\x27"), ⟨[], 0⟩) :=
  spec_c9_trivial_basename ["ws"] ⟨[], 0⟩ "dir/" "hello" "w"
    (by decide) (by decide) (by decide)

/-! ### Evaluation lemmas for file operations on a direct child -/

theorem openRead_child_text (fs : FS) (root : List String) (n s : String)
    (hlook : fs.lookup n = some (.text s)) :
    openRead fs root (root ++ [n]) = .ok s := by
  unfold openRead
  rw [pathEntry_child, hlook]
  rfl

theorem openWrite_child_w (fs : FS) (root : List String) (n wm c : String)
    (hwm : wm ≠ "a") :
    openWrite fs root (root ++ [n]) wm c = .ok (fsSet fs n (.text c)) := by
  unfold openWrite
  rw [if_neg (append_ne_self root n), splitChild_append]
  dsimp only
  rw [if_neg hwm]

theorem openWrite_child_a_none (fs : FS) (root : List String) (n c : String)
    (hlook : fs.lookup n = none) :
    openWrite fs root (root ++ [n]) "a" c = .ok (fsSet fs n (.text c)) := by
  unfold openWrite
  rw [if_neg (append_ne_self root n), splitChild_append]
  dsimp only
  rw [if_pos rfl, hlook]

theorem openWrite_child_a_text (fs : FS) (root : List String) (n c s : String)
    (hlook : fs.lookup n = some (.text s)) :
    openWrite fs root (root ++ [n]) "a" c = .ok (fsSet fs n (.text (s ++ c))) := by
  unfold openWrite
  rw [if_neg (append_ne_self root n), splitChild_append]
  dsimp only
  rw [if_pos rfl, hlook]

theorem openWrite_child_a_other (fs : FS) (root : List String) (n c : String)
    (d : FileData) (hlook : fs.lookup n = some d)
    (hd : ∀ s, d ≠ .text s) :
    openWrite fs root (root ++ [n]) "a" c = .ok (fsSet fs n .blob) := by
  unfold openWrite
  rw [if_neg (append_ne_self root n), splitChild_append]
  dsimp only
  rw [if_pos rfl, hlook]
  cases d with
  | text s => exact absurd rfl (hd s)
  | pdf pages => rfl
  | docx paras => rfl
  | db d => rfl
  | blob => rfl

theorem openWrite_child_ok (fs : FS) (root : List String) (n wm c : String) :
    ∃ fs2, openWrite fs root (root ++ [n]) wm c = .ok fs2 := by
  by_cases hwm : wm = "a"
  · subst hwm
    cases hlook : fs.lookup n with
    | none => exact ⟨_, openWrite_child_a_none fs root n c hlook⟩
    | some d =>
      cases d with
      | text s => exact ⟨_, openWrite_child_a_text fs root n c s hlook⟩
      | pdf pages =>
        exact ⟨_, openWrite_child_a_other fs root n c _ hlook (by intro s h; cases h)⟩
      | docx paras =>
        exact ⟨_, openWrite_child_a_other fs root n c _ hlook (by intro s h; cases h)⟩
      | db d =>
        exact ⟨_, openWrite_child_a_other fs root n c _ hlook (by intro s h; cases h)⟩
      | blob =>
        exact ⟨_, openWrite_child_a_other fs root n c _ hlook (by intro s h; cases h)⟩
  · exact ⟨_, openWrite_child_w fs root n wm c hwm⟩

/-- The write guard reduces to `false` as soon as the suffix is not one
of the four structured kinds. -/
theorem write_guard_false (fs : FS) (root : List String) (p : List String)
    (hcont : [".pdf", ".docx", ".db", ".sqlite"].contains (pathSuffixLower p) = false) :
    (pathExists fs root p &&
      [".pdf", ".docx", ".db", ".sqlite"].contains (pathSuffixLower p)) = false := by
  rw [hcont, Bool.and_false]

/-- Successful overwrite-mode write to a resolved child. -/
theorem write_file_w (root : List String) (st : St) (f c m n : String)
    (hgsp : get_safe_path root f = .ok (root ++ [n]))
    (hguard : (pathExists st.fs root (root ++ [n]) &&
      [".pdf", ".docx", ".db", ".sqlite"].contains
        (pathSuffixLower (root ++ [n]))) = false)
    (hm : m ≠ "a") :
    write_to_file root st f c m =
      .ok ("✅ Successfully wrote to " ++ f,
        { st with fs := fsSet st.fs n (.text c) }) := by
  unfold write_to_file
  rw [hgsp]
  simp only [hguard, Bool.false_eq_true, if_false, if_neg hm]
  rw [openWrite_child_w st.fs root n "w" c (by decide)]
  rfl

/-- Successful append-mode write to a resolved child holding text. -/
theorem write_file_a_text (root : List String) (st : St) (f c n s : String)
    (hgsp : get_safe_path root f = .ok (root ++ [n]))
    (hguard : (pathExists st.fs root (root ++ [n]) &&
      [".pdf", ".docx", ".db", ".sqlite"].contains
        (pathSuffixLower (root ++ [n]))) = false)
    (hlook : st.fs.lookup n = some (.text s)) :
    write_to_file root st f c "a" =
      .ok ("✅ Successfully wrote to " ++ f,
        { st with fs := fsSet st.fs n (.text (s ++ c)) }) := by
  unfold write_to_file
  rw [hgsp]
  simp only [hguard, Bool.false_eq_true, if_false, eq_self_iff_true, if_true]
  rw [openWrite_child_a_text st.fs root n c s hlook]
  rfl

/-- Reading a resolved child holding text returns its content. -/
theorem read_file_text (root : List String) (st : St) (f n s : String)
    (hgsp : get_safe_path root f = .ok (root ++ [n]))
    (hlook : st.fs.lookup n = some (.text s))
    (hpdf : pathSuffixLower (root ++ [n]) ≠ ".pdf")
    (hdocx : pathSuffixLower (root ++ [n]) ≠ ".docx") :
    read_file root st f = .ok (s, st) := by
  unfold read_file
  rw [hgsp]
  have hex : pathExists st.fs root (root ++ [n]) = true := by
    rw [pathExists_child, hlook]
    rfl
  simp only [hex, Bool.not_true, Bool.false_eq_true, if_false,
    if_neg hpdf, if_neg hdocx]
  rw [openRead_child_text st.fs root n s hlook]
  rfl

theorem pathSuffixLower_child (root : List String) (n : String) :
    pathSuffixLower (root ++ [n]) = pyLower (pySuffix n) := by
  unfold pathSuffixLower
  rw [pathName_append]

/-- C3: for a plain-text filename, writing `X` in overwrite mode then
reading returns exactly `X`; appending `Y` then reading returns exactly
`X ++ Y` — content round-trips with no transformation. -/
theorem spec_c3_round_trip (root : List String) (st : St) (f X Y : String)
    (hroot : rootOK root)
    (h1 : basename f ≠ "") (h2 : basename f ≠ ".") (h3 : basename f ≠ "..")
    (hsfx : pyLower (pySuffix (basename f)) ∉ [".pdf", ".docx", ".db", ".sqlite"]) :
    write_to_file root st f X "w" =
      .ok ("✅ Successfully wrote to " ++ f,
        { st with fs := fsSet st.fs (basename f) (.text X) })
    ∧ read_file root { st with fs := fsSet st.fs (basename f) (.text X) } f =
        .ok (X, { st with fs := fsSet st.fs (basename f) (.text X) })
    ∧ write_to_file root { st with fs := fsSet st.fs (basename f) (.text X) } f Y "a" =
        .ok ("✅ Successfully wrote to " ++ f,
          { st with fs := fsSet (fsSet st.fs (basename f) (.text X)) (basename f) (.text (X ++ Y)) })
    ∧ read_file root
        { st with fs := fsSet (fsSet st.fs (basename f) (.text X)) (basename f) (.text (X ++ Y)) } f =
        .ok (X ++ Y,
          { st with fs := fsSet (fsSet st.fs (basename f) (.text X)) (basename f) (.text (X ++ Y)) }) := by
  have hgsp := gsp_child root f hroot h1 h2 h3
  have hsl := pathSuffixLower_child root (basename f)
  have hcont : [".pdf", ".docx", ".db", ".sqlite"].contains
      (pathSuffixLower (root ++ [basename f])) = false := by
    rw [hsl]
    exact contains_eq_false_of_not_mem hsfx
  have hpdf : pathSuffixLower (root ++ [basename f]) ≠ ".pdf" := by
    rw [hsl]; exact fun h => hsfx (by simp [h])
  have hdocx : pathSuffixLower (root ++ [basename f]) ≠ ".docx" := by
    rw [hsl]; exact fun h => hsfx (by simp [h])
  refine ⟨?_, ?_, ?_, ?_⟩
  · exact write_file_w root st f X "w" (basename f) hgsp
      (write_guard_false st.fs root _ hcont) (by decide)
  · exact read_file_text root _ f (basename f) X hgsp
      (fsSet_lookup_self st.fs (basename f) (.text X)) hpdf hdocx
  · exact write_file_a_text root _ f Y (basename f) X hgsp
      (write_guard_false _ root _ hcont)
      (fsSet_lookup_self st.fs (basename f) (.text X))
  · exact read_file_text root _ f (basename f) (X ++ Y) hgsp
      (fsSet_lookup_self _ (basename f) (.text (X ++ Y))) hpdf hdocx

/-- C3 witness: round trip on `notes.txt` with contents `X` and `Y`. -/
theorem spec_c3_witness :
    write_to_file ["ws"] ⟨[], 0⟩ "notes.txt" "X" "w" =
      .ok ("✅ Successfully wrote to " ++ "notes.txt",
        { (⟨[], 0⟩ : St) with fs := fsSet [] (basename "notes.txt") (.text "X") })
    ∧ read_file ["ws"]
        { (⟨[], 0⟩ : St) with fs := fsSet [] (basename "notes.txt") (.text "X") } "notes.txt" =
        .ok ("X",
          { (⟨[], 0⟩ : St) with fs := fsSet [] (basename "notes.txt") (.text "X") })
    ∧ write_to_file ["ws"]
        { (⟨[], 0⟩ : St) with fs := fsSet [] (basename "notes.txt") (.text "X") } "notes.txt" "Y" "a" =
        .ok ("✅ Successfully wrote to " ++ "notes.txt",
          { (⟨[], 0⟩ : St) with fs := fsSet (fsSet [] (basename "notes.txt") (.text "X")) (basename "notes.txt") (.text ("X" ++ "Y")) })
    ∧ read_file ["ws"]
        { (⟨[], 0⟩ : St) with fs := fsSet (fsSet [] (basename "notes.txt") (.text "X")) (basename "notes.txt") (.text ("X" ++ "Y")) } "notes.txt" =
        .ok ("X" ++ "Y",
          { (⟨[], 0⟩ : St) with fs := fsSet (fsSet [] (basename "notes.txt") (.text "X")) (basename "notes.txt") (.text ("X" ++ "Y")) }) :=
  spec_c3_round_trip ["ws"] ⟨[], 0⟩ "notes.txt" "X" "Y"
    (by decide) (by decide) (by decide) (by decide) (by decide)

/-- C4: the text-write guard fires exactly on a pre-existing target with
a structured/binary suffix: (a) when the resolved target exists and its
lowercase suffix is one of `.pdf/.docx/.db/.sqlite`, the unsupported-write
error is returned and nothing changes; (b) otherwise a resolved child is
written successfully — in particular a not-yet-existing `.pdf` name. -/
theorem spec_c4_write_guard :
    (∀ (root : List String) (st : St) (f c m : String) (p : List String),
      get_safe_path root f = .ok p →
      pathExists st.fs root p = true →
      [".pdf", ".docx", ".db", ".sqlite"].contains (pathSuffixLower p) = true →
      write_to_file root st f c m =
        .ok ("Error: Cannot write text directly to binary/database files.", st))
    ∧ (∀ (root : List String) (st : St) (f c m n : String),
      get_safe_path root f = .ok (root ++ [n]) →
      (pathExists st.fs root (root ++ [n]) &&
        [".pdf", ".docx", ".db", ".sqlite"].contains
          (pathSuffixLower (root ++ [n]))) = false →
      ∃ fs2, write_to_file root st f c m =
        .ok ("✅ Successfully wrote to " ++ f, { st with fs := fs2 })) := by
  constructor
  · intro root st f c m p hgsp hex hcont
    unfold write_to_file
    rw [hgsp]
    simp only [hex, hcont, Bool.and_self, if_true]
    rfl
  · intro root st f c m n hgsp hguard
    obtain ⟨fs2, how⟩ :=
      openWrite_child_ok st.fs root n (if m = "a" then "a" else "w") c
    refine ⟨fs2, ?_⟩
    unfold write_to_file
    rw [hgsp]
    simp only [hguard, Bool.false_eq_true, if_false]
    rw [how]
    rfl

/-- C4 witness: writing over an existing `a.pdf` is rejected; writing a
fresh `new.pdf` succeeds. -/
theorem spec_c4_witness :
    write_to_file ["ws"] ⟨[("a.pdf", .pdf [])], 0⟩ "a.pdf" "hi" "w" =
      .ok ("Error: Cannot write text directly to binary/database files.",
        ⟨[("a.pdf", .pdf [])], 0⟩)
    ∧ ∃ fs2, write_to_file ["ws"] ⟨[], 0⟩ "new.pdf" "hi" "w" =
        .ok ("✅ Successfully wrote to " ++ "new.pdf",
          { (⟨[], 0⟩ : St) with fs := fs2 }) :=
  ⟨spec_c4_write_guard.1 ["ws"] ⟨[("a.pdf", .pdf [])], 0⟩ "a.pdf" "hi" "w"
      ["ws", "a.pdf"] (by decide) (by decide) (by decide),
    spec_c4_write_guard.2 ["ws"] ⟨[], 0⟩ "new.pdf" "hi" "w" "new.pdf"
      (by decide) (by decide)⟩

/-- C8: any mode other than exactly `"a"` is treated as overwrite: the
call behaves identically to mode `"w"`, and on a resolved child it
replaces the prior content with the given content. -/
theorem spec_c8_mode_fallback (root : List String) (st : St)
    (f c m : String) (hm : m ≠ "a") :
    write_to_file root st f c m = write_to_file root st f c "w"
    ∧ (∀ n, get_safe_path root f = .ok (root ++ [n]) →
      (pathExists st.fs root (root ++ [n]) &&
        [".pdf", ".docx", ".db", ".sqlite"].contains
          (pathSuffixLower (root ++ [n]))) = false →
      write_to_file root st f c m =
        .ok ("✅ Successfully wrote to " ++ f,
          { st with fs := fsSet st.fs n (.text c) })
      ∧ (fsSet st.fs n (.text c)).lookup n = some (.text c)) := by
  constructor
  · unfold write_to_file
    simp only [if_neg hm, if_neg (show ("w" : String) ≠ "a" by decide)]
  · intro n hgsp hguard
    exact ⟨write_file_w root st f c m n hgsp hguard hm,
      fsSet_lookup_self st.fs n (.text c)⟩

/-- C8 witness: mode `"append"` behaves as overwrite on `note.txt`. -/
theorem spec_c8_witness :
    write_to_file ["ws"] ⟨[("note.txt", .text "old")], 0⟩ "note.txt" "new" "append" =
      write_to_file ["ws"] ⟨[("note.txt", .text "old")], 0⟩ "note.txt" "new" "w"
    ∧ (write_to_file ["ws"] ⟨[("note.txt", .text "old")], 0⟩ "note.txt" "new" "append" =
        .ok ("✅ Successfully wrote to " ++ "note.txt",
          { (⟨[("note.txt", .text "old")], 0⟩ : St) with fs := fsSet [("note.txt", .text "old")] "note.txt" (.text "new") })
      ∧ (fsSet [("note.txt", .text "old")] "note.txt" (.text "new")).lookup "note.txt" =
          some (.text "new")) :=
  ⟨(spec_c8_mode_fallback ["ws"] ⟨[("note.txt", .text "old")], 0⟩
      "note.txt" "new" "append" (by decide)).1,
    (spec_c8_mode_fallback ["ws"] ⟨[("note.txt", .text "old")], 0⟩
      "note.txt" "new" "append" (by decide)).2 "note.txt"
      (by decide) (by decide)⟩

/-! ### Evaluation lemmas for the SQL operations -/

theorem sqliteConnect_db (root : List String) (st : St) (n : String)
    (d : Database) (hlook : st.fs.lookup n = some (.db d)) :
    sqliteConnect root st (root ++ [n]) =
      .ok (.realDb d, { st with openConns := st.openConns + 1 }) := by
  unfold sqliteConnect
  rw [pathEntry_child, hlook]
  rfl

theorem sqliteConnect_fresh (root : List String) (st : St) (n : String)
    (hlook : st.fs.lookup n = none) :
    sqliteConnect root st (root ++ [n]) =
      .ok (.realDb emptyDb,
        ⟨fsSet st.fs n (.db emptyDb), st.openConns + 1⟩) := by
  unfold sqliteConnect
  rw [pathEntry_child, hlook]
  dsimp only [Option.map_none']
  rw [splitChild_append]

theorem connClose_cancel (st : St) :
    connClose { st with openConns := st.openConns + 1 } = st := by
  unfold connClose
  cases st
  simp

theorem connCommit_child (root : List String) (st : St) (n : String)
    (d : Database) :
    connCommit root st (root ++ [n]) d =
      { st with fs := fsSet st.fs n (.db d) } := by
  unfold connCommit
  rw [splitChild_append]

/-- Successful single-statement execution inside `run_sql_query`:
commit, render by `cursor.description`, close. -/
theorem run_sql_query_exec_ok (engine : SqlEngine) (root : List String)
    (st : St) (f q : String) (p : List String) (conn : Conn) (st1 : St)
    (step : CursorStep)
    (hgsp : get_safe_path root f = .ok p)
    (hconn : sqliteConnect root st p = .ok (conn, st1))
    (hexec : connExec engine conn q = .ok step) :
    run_sql_query engine root st f q =
      .ok ((match step.description with
        | some cols =>
          if step.rows.isEmpty then "Query returned 0 results."
          else pyListStr (step.rows.map (pyDictStr cols))
        | none => "✅ Success. Rows affected: " ++ toString step.changes),
        connClose (connCommit root st1 p step.db)) := by
  unfold run_sql_query
  rw [hgsp]
  dsimp only
  rw [hconn]
  dsimp only
  rw [hexec]
  dsimp only
  cases hdesc : step.description with
  | none => rfl
  | some cols => cases hrow : step.rows.isEmpty <;> rfl

/-- Failing single-statement execution inside `run_sql_query`: the
exception is caught per-statement, the connection is closed, and the
query-level error is returned. -/
theorem run_sql_query_exec_error (engine : SqlEngine) (root : List String)
    (st : St) (f q : String) (p : List String) (conn : Conn) (st1 : St)
    (e : PyErr)
    (hgsp : get_safe_path root f = .ok p)
    (hconn : sqliteConnect root st p = .ok (conn, st1))
    (hexec : connExec engine conn q = .error e) :
    run_sql_query engine root st f q =
      .ok ("Query Execution Error: " ++ e.str, connClose st1) := by
  unfold run_sql_query
  rw [hgsp]
  dsimp only
  rw [hconn]
  dsimp only
  rw [hexec]
  rfl

theorem startsWith_false_of_head (c₁ c₂ : Char) (t₁ t₂ : List Char)
    (h : c₁ ≠ c₂) :
    List.isPrefixOf (c₁ :: t₁) (c₂ :: t₂) = false := by
  simp [List.isPrefixOf, h]

theorem create_db_exists (root : List String) (st : St) (f : String)
    (p : List String)
    (hend : (pyEndsWith f ".db" || pyEndsWith f ".sqlite") = true)
    (hgsp : get_safe_path root f = .ok p)
    (hex : pathExists st.fs root p = true) :
    create_sql_db root st f =
      .ok ("Error: File \x27" ++ f ++ "\x27 already exists.", st) := by
  unfold create_sql_db
  simp only [hend, Bool.not_true, Bool.false_eq_true, if_false]
  rw [hgsp]
  dsimp only
  simp only [hex, if_true]
  rfl

theorem create_db_fresh (root : List String) (st : St) (f n : String)
    (hend : (pyEndsWith f ".db" || pyEndsWith f ".sqlite") = true)
    (hgsp : get_safe_path root f = .ok (root ++ [n]))
    (hlook : st.fs.lookup n = none) :
    create_sql_db root st f =
      .ok ("✅ Created new database: " ++ f,
        { st with fs := fsSet st.fs n (.db emptyDb) }) := by
  unfold create_sql_db
  simp only [hend, Bool.not_true, Bool.false_eq_true, if_false]
  rw [hgsp]
  dsimp only
  have hex : pathExists st.fs root (root ++ [n]) = false := by
    rw [pathExists_child, hlook]
    rfl
  simp only [hex, Bool.false_eq_true, if_false]
  rw [sqliteConnect_fresh root st n hlook]
  unfold connClose pyTry
  simp

/-- C5: `create_sql_db` validates the extension before any path
resolution (the extension error is returned for every state and every
root, resolvable or not); creating over an existing target returns the
already-exists error with the state unchanged (no truncation); creating
a fresh target materializes an empty database; and a second create of
the same filename then fails with the already-exists error. -/
theorem spec_c5_create_db :
    (∀ (root : List String) (st : St) (f : String),
      pyEndsWith f ".db" = false → pyEndsWith f ".sqlite" = false →
      create_sql_db root st f =
        .ok ("Error: Database filename must end with .db or .sqlite", st))
    ∧ (∀ (root : List String) (st : St) (f : String) (p : List String),
      (pyEndsWith f ".db" || pyEndsWith f ".sqlite") = true →
      get_safe_path root f = .ok p →
      pathExists st.fs root p = true →
      create_sql_db root st f =
        .ok ("Error: File \x27" ++ f ++ "\x27 already exists.", st))
    ∧ (∀ (root : List String) (st : St) (f n : String),
      (pyEndsWith f ".db" || pyEndsWith f ".sqlite") = true →
      get_safe_path root f = .ok (root ++ [n]) →
      st.fs.lookup n = none →
      create_sql_db root st f =
        .ok ("✅ Created new database: " ++ f,
          { st with fs := fsSet st.fs n (.db emptyDb) })
      ∧ create_sql_db root { st with fs := fsSet st.fs n (.db emptyDb) } f =
        .ok ("Error: File \x27" ++ f ++ "\x27 already exists.",
          { st with fs := fsSet st.fs n (.db emptyDb) })) := by
  refine ⟨?_, ?_, ?_⟩
  · intro root st f h1 h2
    unfold create_sql_db
    simp only [h1, h2, Bool.or_self, Bool.not_false, if_true]
  · exact create_db_exists
  · intro root st f n hend hgsp hlook
    refine ⟨create_db_fresh root st f n hend hgsp hlook, ?_⟩
    apply create_db_exists root _ f (root ++ [n]) hend hgsp
    rw [pathExists_child]
    dsimp only
    rw [fsSet_lookup_self]
    rfl

/-- C5 witness: creating `x.db` twice — the second call reports
already-exists and the stored database is unchanged. -/
theorem spec_c5_witness :
    create_sql_db ["ws"] ⟨[], 0⟩ "x.db" =
      .ok ("✅ Created new database: " ++ "x.db",
        { (⟨[], 0⟩ : St) with fs := fsSet [] "x.db" (.db emptyDb) })
    ∧ create_sql_db ["ws"] { (⟨[], 0⟩ : St) with fs := fsSet [] "x.db" (.db emptyDb) } "x.db" =
      .ok ("Error: File \x27" ++ "x.db" ++ "\x27 already exists.",
        { (⟨[], 0⟩ : St) with fs := fsSet [] "x.db" (.db emptyDb) }) :=
  spec_c5_create_db.2.2 ["ws"] ⟨[], 0⟩ "x.db" "x.db"
    (by decide) (by decide) (by decide)

/-- C6: `run_sql_query` dispatches on `cursor.description`: a statement
with output columns has all rows fetched and rendered as column-to-value
mappings, zero rows being a distinct "no results" outcome, while a
statement without a result set reports the rows-affected count; in
particular `SELECT 1` renders one row with value 1 and
`CREATE TABLE t(id INT)` reports rows affected. -/
theorem spec_c6_query_dispatch :
    (∀ (engine : SqlEngine) (root : List String) (st : St) (f q : String)
      (p : List String) (conn : Conn) (st1 : St) (step : CursorStep)
      (cols : List String),
      get_safe_path root f = .ok p →
      sqliteConnect root st p = .ok (conn, st1) →
      connExec engine conn q = .ok step →
      step.description = some cols →
      run_sql_query engine root st f q =
        .ok ((if step.rows.isEmpty then "Query returned 0 results."
          else pyListStr (step.rows.map (pyDictStr cols))),
          connClose (connCommit root st1 p step.db)))
    ∧ (∀ (engine : SqlEngine) (root : List String) (st : St) (f q : String)
      (p : List String) (conn : Conn) (st1 : St) (step : CursorStep),
      get_safe_path root f = .ok p →
      sqliteConnect root st p = .ok (conn, st1) →
      connExec engine conn q = .ok step →
      step.description = none →
      run_sql_query engine root st f q =
        .ok ("✅ Success. Rows affected: " ++ toString step.changes,
          connClose (connCommit root st1 p step.db)))
    ∧ (∀ (root : List String) (st : St) (f n : String) (d : Database),
      get_safe_path root f = .ok (root ++ [n]) →
      st.fs.lookup n = some (.db d) →
      run_sql_query sqliteExec root st f "SELECT 1" =
        .ok ("[\x7b\x271\x27: 1\x7d]", st))
    ∧ (∀ (root : List String) (st : St) (f n : String) (d : Database),
      get_safe_path root f = .ok (root ++ [n]) →
      st.fs.lookup n = some (.db d) →
      hasTable d "t" = false →
      run_sql_query sqliteExec root st f "CREATE TABLE t(id INT)" =
        .ok ("✅ Success. Rows affected: 0",
          { st with fs := fsSet st.fs n (.db ⟨d.tables ++ [⟨"t", [("id", "INT")], []⟩]⟩) })) := by
  refine ⟨?_, ?_, ?_, ?_⟩
  · intro engine root st f q p conn st1 step cols hgsp hconn hexec hdesc
    rw [run_sql_query_exec_ok engine root st f q p conn st1 step hgsp hconn hexec,
      hdesc]
  · intro engine root st f q p conn st1 step hgsp hconn hexec hdesc
    rw [run_sql_query_exec_ok engine root st f q p conn st1 step hgsp hconn hexec,
      hdesc]
  · intro root st f n d hgsp hlook
    obtain ⟨fs0, oc⟩ := st
    have hexec : connExec sqliteExec (.realDb d) "SELECT 1" =
        .ok ⟨some ["1"], [[(1 : Int)]], 0, d⟩ := rfl
    rw [run_sql_query_exec_ok sqliteExec root ⟨fs0, oc⟩ f "SELECT 1"
      (root ++ [n]) _ _ _ hgsp (sqliteConnect_db root ⟨fs0, oc⟩ n d hlook) hexec]
    rw [connCommit_child]
    dsimp only
    rw [fsSet_eq_of_lookup fs0 n (.db d) hlook]
    unfold connClose
    simp only [Nat.add_sub_cancel]
    have hstr : pyListStr (List.map (pyDictStr ["1"]) [[(1 : Int)]]) =
        "[\x7b\x271\x27: 1\x7d]" := by decide
    rw [hstr]
    rfl
  · intro root st f n d hgsp hlook hht
    obtain ⟨fs0, oc⟩ := st
    have hexec : connExec sqliteExec (.realDb d) "CREATE TABLE t(id INT)" =
        .ok ⟨none, [], 0, ⟨d.tables ++ [⟨"t", [("id", "INT")], []⟩]⟩⟩ := by
      show sqliteExec d "CREATE TABLE t(id INT)" = _
      unfold sqliteExec
      rw [if_neg (by decide), if_pos rfl]
      simp only [hht, Bool.false_eq_true, if_false]
    rw [run_sql_query_exec_ok sqliteExec root ⟨fs0, oc⟩ f "CREATE TABLE t(id INT)"
      (root ++ [n]) _ _ _ hgsp (sqliteConnect_db root ⟨fs0, oc⟩ n d hlook) hexec]
    rw [connCommit_child]
    unfold connClose
    dsimp only
    simp only [Nat.add_sub_cancel]
    have hstr : ("✅ Success. Rows affected: " ++ toString (0 : Nat)) =
        "✅ Success. Rows affected: 0" := by decide
    rw [hstr]

/-- C6 witness: on a stored empty database `x.db`, `SELECT 1` renders
one row mapping column `1` to value `1`, and `CREATE TABLE t(id INT)`
reports a rows-affected outcome. -/
theorem spec_c6_witness :
    run_sql_query sqliteExec ["ws"] ⟨[("x.db", .db emptyDb)], 0⟩ "x.db" "SELECT 1" =
      .ok ("[\x7b\x271\x27: 1\x7d]", ⟨[("x.db", .db emptyDb)], 0⟩)
    ∧ run_sql_query sqliteExec ["ws"] ⟨[("x.db", .db emptyDb)], 0⟩ "x.db"
        "CREATE TABLE t(id INT)" =
      .ok ("✅ Success. Rows affected: 0",
        { (⟨[("x.db", .db emptyDb)], 0⟩ : St) with fs := fsSet [("x.db", .db emptyDb)] "x.db" (.db ⟨emptyDb.tables ++ [⟨"t", [("id", "INT")], []⟩]⟩) }) :=
  ⟨spec_c6_query_dispatch.2.2.1 ["ws"] ⟨[("x.db", .db emptyDb)], 0⟩ "x.db" "x.db"
      emptyDb (by decide) (by decide),
    spec_c6_query_dispatch.2.2.2 ["ws"] ⟨[("x.db", .db emptyDb)], 0⟩ "x.db" "x.db"
      emptyDb (by decide) (by decide) (by decide)⟩

/-- C7: a statement that fails during execution is caught at the
per-statement level: the call returns the query-level error (distinct
from the connection-level "System Error" form), the connection is closed
(the open-connection count is restored), and the database file is
unmodified — the final state is exactly the initial state. -/
theorem spec_c7_query_error (engine : SqlEngine) (root : List String)
    (st : St) (f q n : String) (d : Database) (e : PyErr)
    (hgsp : get_safe_path root f = .ok (root ++ [n]))
    (hlook : st.fs.lookup n = some (.db d))
    (hexec : engine d q = .error e) :
    run_sql_query engine root st f q =
      .ok ("Query Execution Error: " ++ e.str, st)
    ∧ pyStartsWith "Query Execution Error"
        ("Query Execution Error: " ++ e.str) = true
    ∧ pyStartsWith "System Error"
        ("Query Execution Error: " ++ e.str) = false := by
  refine ⟨?_, ?_, ?_⟩
  · rw [run_sql_query_exec_error engine root st f q (root ++ [n]) (.realDb d)
      { st with openConns := st.openConns + 1 } e hgsp
      (sqliteConnect_db root st n d hlook) hexec]
    rw [connClose_cancel]
  · unfold pyStartsWith
    rw [String.data_append]
    have h1 : ("Query Execution Error: ").data =
        ("Query Execution Error").data ++ [':', ' '] := rfl
    rw [h1, List.append_assoc]
    exact isPrefixOf_append_self _ _
  · unfold pyStartsWith
    rw [String.data_append]
    exact startsWith_false_of_head 'S' 'Q' _ _ (by decide)

/-- C7 witness: a malformed statement on an existing database returns the
query-level error and leaves the state untouched. -/
theorem spec_c7_witness :
    run_sql_query sqliteExec ["ws"] ⟨[("x.db", .db emptyDb)], 0⟩ "x.db" "SELEC 1" =
      .ok ("Query Execution Error: " ++
        (PyErr.operationalError ("near \x22SELEC 1\x22: syntax error")).str,
        ⟨[("x.db", .db emptyDb)], 0⟩)
    ∧ pyStartsWith "Query Execution Error"
        ("Query Execution Error: " ++
          (PyErr.operationalError ("near \x22SELEC 1\x22: syntax error")).str) = true
    ∧ pyStartsWith "System Error"
        ("Query Execution Error: " ++
          (PyErr.operationalError ("near \x22SELEC 1\x22: syntax error")).str) = false :=
  spec_c7_query_error sqliteExec ["ws"] ⟨[("x.db", .db emptyDb)], 0⟩ "x.db"
    "SELEC 1" "x.db" emptyDb (.operationalError ("near \x22SELEC 1\x22: syntax error"))
    (by decide) (by decide) (by decide)

/-- C10: `run_sql_query` performs no existence check: on a confined but
nonexistent filename, opening the connection silently materializes an
empty database file, and the statement is executed against that fresh
empty database; `inspect_sql_db` on the same filename instead reports
not-found. -/
theorem spec_c10_implicit_create (engine : SqlEngine) (root : List String)
    (st : St) (f q n : String)
    (hgsp : get_safe_path root f = .ok (root ++ [n]))
    (hlook : st.fs.lookup n = none) :
    inspect_sql_db root st f = .ok ("Error: Database file not found.", st)
    ∧ ∃ st2, run_sql_query engine root st f q =
        .ok ((match engine emptyDb q with
          | .ok step =>
            match step.description with
            | some cols =>
              if step.rows.isEmpty then "Query returned 0 results."
              else pyListStr (step.rows.map (pyDictStr cols))
            | none => "✅ Success. Rows affected: " ++ toString step.changes
          | .error e => "Query Execution Error: " ++ e.str), st2)
        ∧ ∃ d2, st2.fs.lookup n = some (.db d2) := by
  constructor
  · unfold inspect_sql_db
    rw [hgsp]
    dsimp only
    have hex : pathExists st.fs root (root ++ [n]) = false := by
      rw [pathExists_child, hlook]
      rfl
    simp only [hex, Bool.not_false, if_true]
    rfl
  · have hconn := sqliteConnect_fresh root st n hlook
    cases hres : engine emptyDb q with
    | ok step =>
      refine ⟨connClose (connCommit root ⟨fsSet st.fs n (.db emptyDb), st.openConns + 1⟩ (root ++ [n]) step.db), ?_, step.db, ?_⟩
      · rw [run_sql_query_exec_ok engine root st f q (root ++ [n]) _ _ _ hgsp hconn
          (show connExec engine (.realDb emptyDb) q = .ok step from hres)]
      · rw [connCommit_child]
        exact fsSet_lookup_self _ n _
    | error e =>
      refine ⟨connClose ⟨fsSet st.fs n (.db emptyDb), st.openConns + 1⟩, ?_,
        emptyDb, ?_⟩
      · rw [run_sql_query_exec_error engine root st f q (root ++ [n]) _ _ e hgsp hconn
          (show connExec engine (.realDb emptyDb) q = .error e from hres)]
      · exact fsSet_lookup_self _ n _

/-- C10 witness: `run_sql_query` on nonexistent `new.db` executes
`SELECT 1` against a silently created empty database, while
`inspect_sql_db` reports not-found. -/
theorem spec_c10_witness :
    inspect_sql_db ["ws"] ⟨[], 0⟩ "new.db" =
      .ok ("Error: Database file not found.", ⟨[], 0⟩)
    ∧ ∃ st2, run_sql_query sqliteExec ["ws"] ⟨[], 0⟩ "new.db" "SELECT 1" =
        .ok ((match sqliteExec emptyDb "SELECT 1" with
          | .ok step =>
            match step.description with
            | some cols =>
              if step.rows.isEmpty then "Query returned 0 results."
              else pyListStr (step.rows.map (pyDictStr cols))
            | none => "✅ Success. Rows affected: " ++ toString step.changes
          | .error e => "Query Execution Error: " ++ e.str), st2)
        ∧ ∃ d2, st2.fs.lookup "new.db" = some (.db d2) :=
  spec_c10_implicit_create sqliteExec ["ws"] ⟨[], 0⟩ "new.db" "SELECT 1" "new.db"
    (by decide) (by decide)

end McpServer
